import Mathlib

/-!
Verification of the expression engine of the `insights` repository
(package `eparser`): token model, lazy JSON binding, lexer, RPN builder,
evaluator and operator dispatch, shallowly embedded from the Go source.

Modelling conventions:
* Go `float64` payloads are modelled as rationals (`ℚ`); the conversion
  `float64(intValue)` is modelled as the exact cast `Int → ℚ`.
* Go's `error` results are modelled by `GoErr` (code and title of
  `insights.Err`; the structured `data` payload is elided).
* A Go runtime panic (index out of range, explicit `panic`) is modelled by
  the `Out.panic` outcome.
* Go maps are modelled as association lists; a `nil` map or `nil` interface
  value is modelled with `Option` (or with `Token.tnull` where a nil
  `Token` interface value flows through the evaluator).
* The only `Function` values the engine ever creates are the two container
  constructors `NewListToken` and `NewMapToken`, so the `Function` variant
  is embedded as the closed enumeration `fnList` / `fnMap`.
* The reserved-word registry `reservedWordParsers` is empty in the source,
  so its lookups are embedded as constantly-`none`.
* `unicode.IsNumber` / `unicode.IsLetter` / `unicode.IsSpace` are embedded
  by their ASCII restrictions, which cover every input considered here.
-/

/-- Mirrors `insights.Err` (file `err.go`): a tagged error with a code and a
title; the `Data map[string]any` diagnostic payload is elided. -/
structure GoErr where
  code : String
  title : String
  deriving DecidableEq, Repr

/-- Mirrors `insights.SyntaxErr`. -/
def syntaxErr (title : String) : GoErr := ⟨"SyntaxErr", title⟩

/-- Mirrors `insights.ParserErr`. -/
def parserErr (title : String) : GoErr := ⟨"ParserErr", title⟩

/-- Mirrors `insights.RuntimeErr`. -/
def runtimeErr (title : String) : GoErr := ⟨"RuntimeErr", title⟩

/-- Mirrors `insights.InternalErr`. -/
def internalErr (title : String) : GoErr := ⟨"InternalErr", title⟩

/-- Mirrors `fmt.Errorf` (an untagged Go error, code left empty). -/
def untaggedErr (title : String) : GoErr := ⟨"", title⟩

/-- Outcome of running a piece of the Go code: a value, a returned error, or
a runtime panic. -/
inductive Out (α : Type) where
  | ok (a : α)
  | err (e : GoErr)
  | panic
  deriving DecidableEq, Repr

/-- The engine's JSON values (`json.RawMessage` fragments are pre-validated
by `NewLazyJsonMap`, so a raw fragment is embedded as the JSON value it
denotes). -/
inductive Json where
  | num (q : ℚ)
  | str (s : String)
  | bool (b : Bool)
  | obj (fields : List (String × Json))
  | arr (elems : List Json)
  | null
  deriving Repr

/-- The closed token universe of `tokens.go` / `containers.go`.
`tnull` is the nil `Token` interface value. `ref` mirrors `refToken`
(fields `originalValue`, `key`, `origin`); `lazy` mirrors `lazyJsonToken`
(fields `value`, `json`). -/
inductive Token where
  | tnull
  | op (s : String)
  | unary
  | fnList
  | fnMap
  | str (s : String)
  | int (n : Int)
  | float (q : ℚ)
  | bool (b : Bool)
  | list (xs : List Token)
  | map (m : List (String × Token))
  | tuple (xs : List Token)
  | kv (k : String) (v : Token)
  | var (path : List String)
  | ref (originalValue : Token) (key : List String) (origin : Option (List (String × Token)))
  | lazy (value : Option Token) (json : Json)
  deriving Repr

/-- The dynamic type tag of a token, mirroring `reflect.TypeOf` as used by
`newOpTypePair` (the nil interface gets its own tag). -/
inductive Tag where
  | null | op | unary | func | str | int | float | bool
  | list | map | tuple | kv | var | ref | lazy
  deriving DecidableEq, BEq, Repr

/-- Tag of a token (`reflect.TypeOf`); both container constructors have the
Go type `Function`. -/
def tagOf : Token → Tag
  | .tnull => .null
  | .op _ => .op
  | .unary => .unary
  | .fnList => .func
  | .fnMap => .func
  | .str _ => .str
  | .int _ => .int
  | .float _ => .float
  | .bool _ => .bool
  | .list _ => .list
  | .map _ => .map
  | .tuple _ => .tuple
  | .kv _ _ => .kv
  | .var _ => .var
  | .ref _ _ _ => .ref
  | .lazy _ _ => .lazy

/-- Mirrors `unmarshalLazyValue` (tokens.go): switch on the first byte of the
raw JSON value. A value starting with a digit is a non-negative number; `-`
and `null` fall into the default branch and yield an InternalErr. Object and
array members are wrapped as unresolved `lazyJsonToken`s. -/
def unmarshalLazyValue : Json → Except GoErr Token
  | .num q =>
      if 0 ≤ q then .ok (.float q)
      else .error (internalErr "unrecognized JSON value received on unmarshalLazyValue")
  | .str s => .ok (.str s)
  | .bool b => .ok (.bool b)
  | .obj fields => .ok (.map (fields.map fun kv => (kv.1, Token.lazy none kv.2)))
  | .arr elems => .ok (.list (elems.map fun v => Token.lazy none v))
  | .null => .error (internalErr "unrecognized JSON value received on unmarshalLazyValue")

/-- Mirrors `lazyJsonToken.Value`: return the memoised value if present,
otherwise unmarshal the raw JSON; an unmarshalling error is a `panic` in the
source. -/
def lazyVal (value : Option Token) (json : Json) : Out Token :=
  match value with
  | some v => .ok v
  | none =>
      match unmarshalLazyValue json with
      | .ok t => .ok t
      | .error _ => .panic

/-- Mirrors `NewLazyJsonMap`: validate that the input is a JSON object and
wrap each member value as an unresolved `lazyJsonToken`. -/
def NewLazyJsonMap : Json → Except GoErr (List (String × Token))
  | .obj fields => .ok (fields.map fun kv => (kv.1, Token.lazy none kv.2))
  | _ => .error (parserErr "bad input json received")

/-- Go interface equality `t1 == t2` between two `Token` values: values of
the same comparable dynamic type compare by value, values of different
dynamic types compare unequal, and comparing two values of the same
uncomparable dynamic type (slice, map or function: `listToken`, `mapToken`,
`tupleToken`, `varToken`, `Function`, and the structs embedding them)
panics at runtime. -/
def goTokenEq : Token → Token → Out Bool
  | .tnull, .tnull => .ok true
  | .op a, .op b => .ok (a == b)
  | .unary, .unary => .ok true
  | .fnList, .fnList => .panic
  | .fnList, .fnMap => .panic
  | .fnMap, .fnList => .panic
  | .fnMap, .fnMap => .panic
  | .str a, .str b => .ok (a == b)
  | .int a, .int b => .ok (a == b)
  | .float a, .float b => .ok (a == b)
  | .bool a, .bool b => .ok (a == b)
  | .list _, .list _ => .panic
  | .map _, .map _ => .panic
  | .tuple _, .tuple _ => .panic
  | .kv _ _, .kv _ _ => .panic
  | .var _, .var _ => .panic
  | .ref _ _ _, .ref _ _ _ => .panic
  | .lazy _ _, .lazy _ _ => .panic
  | _, _ => .ok false

/-- ASCII restriction of `unicode.IsNumber`. -/
def goIsNumber (c : Char) : Bool := c.isDigit

/-- Mirrors `isVarChar` (eparser.go): `unicode.IsLetter(c) || c == '_'`,
with the letter test restricted to ASCII. -/
def isVarChar (c : Char) : Bool := c.isAlpha || c = '_'

/-- ASCII restriction of `unicode.IsSpace`. -/
def goIsSpace (c : Char) : Bool := c = ' ' || c = '\t' || c = '\n' || c = '\r'

/-- Mirrors the per-segment test inside `varToken.String`: the segment is
printed bare iff its first character is a var char and the rest are var
chars or digits. `none` models the Go panic `str[0]` on an empty segment. -/
def onlyVarCharsSeg (s : String) : Option Bool :=
  match s.data with
  | [] => none
  | c :: rest => some (isVarChar c && rest.all fun ch => isVarChar ch || goIsNumber ch)

/-- JSON escaping of one character, as `json.Marshal` applies to the bracketed
segments in `varToken.String` (control-character and HTML escaping beyond
this set is elided). -/
def jsonEscapeChar (c : Char) : List Char :=
  if c = '"' then ['\\', '"']
  else if c = '\\' then ['\\', '\\']
  else if c = '\n' then ['\\', 'n']
  else if c = '\t' then ['\\', 't']
  else if c = '\r' then ['\\', 'r']
  else [c]

/-- Mirrors `json.Marshal` applied to a Go string (quoted form). -/
def goJsonQuote (s : String) : String :=
  "\"" ++ String.mk (s.data.foldr (fun c acc => jsonEscapeChar c ++ acc) []) ++ "\""

/-- Printable form of the trailing segments of a variable path, mirroring the
loop of `varToken.String`; `none` models the Go panic on an empty segment. -/
def varStringAux : List String → Option String
  | [] => some ""
  | s :: rest => do
      let bare ← onlyVarCharsSeg s
      let tail ← varStringAux rest
      pure ((if bare then "." ++ s else "[" ++ goJsonQuote s ++ "]") ++ tail)

/-- Mirrors `varToken.String`: first segment bare, later segments dotted or
bracket-quoted. -/
def varString : List String → Option String
  | [] => some ""
  | v0 :: rest => (varStringAux rest).map fun tail => v0 ++ tail

/-- Materialisation step at each point of `varToken.Resolve`: a
`lazyJsonToken` is replaced by `lazy.Value()` (which panics on JSON the
switch of `unmarshalLazyValue` rejects); any other value, or a missing one,
passes through. -/
def tokMaterialize : Option Token → Out (Option Token)
  | some (.lazy value json) =>
      match lazyVal value json with
      | .ok t => .ok (some t)
      | .err e => .err e
      | .panic => .panic
  | other => .ok other

/-- Printable-path fallback of `varToken.Resolve` (`strToken(v.String())`). -/
def varFallback (whole : List String) : Out Token :=
  match varString whole with
  | some s => .ok (.str s)
  | none => .panic

/-- The walking loop of `varToken.Resolve` over the trailing segments;
`whole` is the complete path (used by the fallback), `value` the current
(already materialised) value. -/
def varResolveLoop (whole : List String) : List String → Option Token → Out Token
  | [], value =>
      match value with
      | none => varFallback whole
      | some t => .ok t
  | s :: rest, value =>
      match value with
      | some (.map m) =>
          match tokMaterialize (m.lookup s) with
          | .ok v => varResolveLoop whole rest v
          | .err e => .err e
          | .panic => .panic
      | _ => varFallback whole

/-- Mirrors `varToken.Resolve`: look up the first segment, materialise lazy
JSON at every step, walk maps for the remaining segments, and fall back to
the printable form of the whole path on a missing or non-Map value. The
empty path panics (`v[0]` on an empty slice). -/
def varResolve (v : List String) (vars : List (String × Token)) : Out Token :=
  match v with
  | [] => .panic
  | v0 :: rest =>
      match tokMaterialize (vars.lookup v0) with
      | .ok value => varResolveLoop (v0 :: rest) rest value
      | .err e => .err e
      | .panic => .panic

/-- Mirrors `refToken.Resolve`: with no origin map, resolve the key in the
local scope (that resolution never yields a nil token, so its result is
always taken); with an origin map, return the compile-time value.
The evaluator always passes a non-nil local scope. -/
def refResolve (originalValue : Token) (key : List String)
    (origin : Option (List (String × Token)))
    (localScope : List (String × Token)) : Out Token :=
  match origin with
  | none => varResolve key localScope
  | some _ => .ok originalValue

/-- Mirrors `consumeSpaces`: skip whitespace from `index`; when only
whitespace remains up to the end of the input, the original `index` is
returned unchanged (the final `return index` of the source). -/
def consumeSpaces (expr : List Char) (index : Nat) : Nat :=
  match (expr.drop index).findIdx? (fun c => !goIsSpace c) with
  | some k => index + k
  | none => index

/-- Mirrors `parseVar`: the first character is assumed valid; scan while the
characters are var chars, digits or underscores. -/
def parseVar (expr : List Char) (index : Nat) : Nat × String :=
  match (expr.drop (index + 1)).findIdx?
      (fun c => !(isVarChar c || goIsNumber c || c = '_')) with
  | some k => (index + 1 + k, String.mk ((expr.drop index).take (1 + k)))
  | none => (expr.length, String.mk (expr.drop index))

/-- Mirrors `hexValidChars` / `isValidHexDigit`. -/
def hexValid (c : Char) : Bool :=
  c.isDigit || ('a' ≤ c && c ≤ 'f') || ('A' ≤ c && c ≤ 'F')

/-- Value of a digit character (255 when it is not a digit of any base). -/
def digitVal (c : Char) : Nat :=
  if c.isDigit then c.toNat - '0'.toNat
  else if 'a' ≤ c && c ≤ 'f' then c.toNat - 'a'.toNat + 10
  else if 'A' ≤ c && c ≤ 'F' then c.toNat - 'A'.toNat + 10
  else 255

/-- Accumulate digits in the given base; `none` on an empty digit string or
on a digit that is invalid for the base. -/
def parseDigitsAux (base : Nat) : Nat → List Char → Option Nat
  | acc, [] => some acc
  | acc, c :: rest =>
      if digitVal c < base then parseDigitsAux base (acc * base + digitVal c) rest
      else none

/-- Mirrors `strconv.ParseInt(s, 0, 64)` on the literal shapes the lexer
produces (no sign, no underscores): base from the `0x`/`0b`/`0o`/leading-`0`
prefix, digit validation, and the signed-64-bit range check. -/
def goParseInt (s : List Char) : Option Int :=
  let (base, digits) :=
    match s with
    | '0' :: 'x' :: rest => (16, rest)
    | '0' :: 'X' :: rest => (16, rest)
    | '0' :: 'b' :: rest => (2, rest)
    | '0' :: 'B' :: rest => (2, rest)
    | '0' :: 'o' :: rest => (8, rest)
    | '0' :: 'O' :: rest => (8, rest)
    | '0' :: c :: rest => (8, c :: rest)
    | _ => (10, s)
  match digits with
  | [] => none
  | _ =>
      match parseDigitsAux base 0 digits with
      | some n => if (n : Int) ≤ 2 ^ 63 - 1 then some (n : Int) else none
      | none => none

/-- Mirrors `strconv.ParseFloat` on the decimal shapes `digits.digits` the
(dead) float branch of `parseNumber` could receive. -/
def goParseFloat (s : List Char) : Option ℚ :=
  let intPart := s.takeWhile (fun c => c ≠ '.')
  match s.dropWhile (fun c => c ≠ '.') with
  | [] =>
      match parseDigitsAux 10 0 intPart with
      | some n => some (n : ℚ)
      | none => none
  | _ :: fracPart =>
      match parseDigitsAux 10 0 intPart, parseDigitsAux 10 0 fracPart with
      | some n, some f => some ((n : ℚ) + (f : ℚ) / (10 : ℚ) ^ fracPart.length)
      | _, _ => none

/-- The decimal-part sub-loop of `parseNumber` (`for i < len(expr) &&
isNumberFn(expr[i]) { i++ }`). -/
def consumeDecimals (expr : List Char) (isNum : Char → Bool) (i : Nat) : Nat :=
  match (expr.drop i).findIdx? (fun c => !isNum c) with
  | some k => i + k
  | none => expr.length

/-- The literal-scanning loop of `parseNumber`, including its (unreachable)
decimal-point branch: scan while `isNum` holds; on a `.` consume the decimal
part and stop with the float flag set. Returns the end index and the flag. -/
def numScanLoop (expr : List Char) (isNum : Char → Bool) : Nat → Nat → Nat × Bool
  | 0, i => (i, false)
  | fuel + 1, i =>
      match expr.get? i with
      | some c =>
          if isNum c then
            if c = '.' then (consumeDecimals expr isNum (i + 1), true)
            else numScanLoop expr isNum fuel (i + 1)
          else (i, false)
      | none => (i, false)

/-- Mirrors `parseNumber`: base detection from the prefix, literal scan, and
conversion through `strconv.ParseInt`/`ParseFloat`. The index `0` is
returned alongside an error exactly as in the source; a `ParseFloat`
failure is the source's `panic`. -/
def parseNumber (expr : List Char) (index : Nat) : Nat × Out Token :=
  let (base, i0) :=
    if expr.get? index = some '0' then
      match expr.get? (index + 1) with
      | some 'x' => (16, index + 2)
      | some 'b' => (2, index + 2)
      | some c => if goIsNumber c then (8, index + 1) else (10, index)
      | none => (10, index)
    else (10, index)
  let isNum := if base = 16 then hexValid else goIsNumber
  let (iEnd, isFloat) := numScanLoop expr isNum (expr.length + 1) i0
  let lit := (expr.drop index).take (iEnd - index)
  if isFloat then
    if base ≠ 10 then (0, .err (syntaxErr "only base 10 literals can have decimals"))
    else
      match goParseFloat lit with
      | some q => (iEnd, .ok (.float q))
      | none => (0, .panic)
  else
    match goParseInt lit with
    | some n => (iEnd, .ok (.int n))
    | none => (0, .err (syntaxErr "error parsing numeric literal"))

/-- The entries of the `opPrecedence` map (rpn_builder.go): lower binds
tighter; unary operators are prefixed with `L`/`R`. -/
def opPrecedenceList : List (String × Nat) :=
  [("[]", 2), ("()", 2), (".", 2),
   ("**", 3),
   ("*", 5), ("/", 5), ("%", 5),
   ("+", 6), ("-", 6),
   ("<<", 7), (">>", 7),
   ("<", 9), ("<=", 9), (">=", 9), (">", 9),
   ("==", 10), ("!=", 10),
   ("&", 11),
   ("^", 12),
   ("|", 13),
   ("&&", 14),
   ("||", 15),
   ("=", 16),
   (":", 16),
   (",", 17),
   ("L-", 3), ("L+", 3), ("L!", 3),
   ("!", 3)]

/-- `opPrecedence[op]` with the Go zero default for a missing key (this
default is what the drain loop sees for the bracket markers on the operator
stack). -/
def opPrec (op : String) : Nat := (opPrecedenceList.lookup op).getD 0

/-- `_, exists := opPrecedence[op]`. -/
def opPrecContains (op : String) : Bool := (opPrecedenceList.lookup op).isSome

/-- The registered operator strings (keys of the `operators` dispatch map in
rpn_builder.go; `>` and `<` are commented out in the source). -/
def operatorKeys : List String := ["==", "!="]

/-- Mirrors `opRunesSet`: the characters occurring in registered operator
strings. -/
def opRunesSet (c : Char) : Bool := operatorKeys.any fun k => k.data.contains c

/-- Mirrors the `opStartingChars` literal inside `parse`. -/
def opStartingChar (c : Char) : Bool :=
  c = '+' || c = '-' || c = '\'' || c = '"' ||
  c = '(' || c = ')' || c = '[' || c = ']' || c = '{' || c = '}' || c = '_'

/-- Mirrors `normalizeOp`: strip a leading `L`/`R` unary marker. -/
def normalizeOp (op : String) : String :=
  match op.data with
  | 'L' :: rest => String.mk rest
  | 'R' :: rest => String.mk rest
  | _ => op

/-- Mirrors the `RPNBuilder` struct. The operator stack is stored
top-first (the source appends at the end and indexes `l-1`). The zero value
of `lastTokenWasOp` is the empty string, which counts as an operator. -/
structure RPNBuilder where
  rpn : List Token := []
  opStack : List String := []
  lastTokenWasOp : String := ""
  lastTokenWasUnary : Bool := false
  bracketLevel : Int := 0
  deriving Repr

/-- The drain loop of `handleOpStack`: pop operators into the RPN while the
incoming precedence is ≥ the precedence of the top of the stack. -/
def drainGE (op : String) : List String → List Token → List String × List Token
  | [], rpn => ([], rpn)
  | top :: rest, rpn =>
      if opPrec op ≥ opPrec top then drainGE op rest (rpn ++ [Token.op (normalizeOp top)])
      else (top :: rest, rpn)

/-- Mirrors `RPNBuilder.handleOpStack`. -/
def handleOpStack (r : RPNBuilder) (op : String) : RPNBuilder :=
  let (st, rpn) := drainGE op r.opStack r.rpn
  { r with opStack := st, rpn := rpn }

/-- Mirrors `RPNBuilder.handleBinaryOp`. -/
def handleBinaryOp (r : RPNBuilder) (op : String) : RPNBuilder :=
  let r1 := handleOpStack r op
  { r1 with opStack := op :: r1.opStack }

/-- Mirrors `RPNBuilder.handleLeftUnary`. -/
def handleLeftUnary (r : RPNBuilder) (unaryOp : String) : RPNBuilder :=
  { r with rpn := r.rpn ++ [Token.unary], opStack := unaryOp :: r.opStack }

/-- Mirrors `RPNBuilder.handleRightUnary`. -/
def handleRightUnary (r : RPNBuilder) (unaryOp : String) : RPNBuilder :=
  let r1 := handleOpStack r unaryOp
  { r1 with rpn := r1.rpn ++ [Token.unary, Token.op (normalizeOp unaryOp)] }

/-- Mirrors `RPNBuilder.handleOp`: classify as left-unary, right-unary or
binary, set the flags, or return a SyntaxErr (the state is unchanged on the
error paths, which return before mutating). -/
def handleOp (r : RPNBuilder) (op : String) : RPNBuilder × Option GoErr :=
  if r.lastTokenWasOp ≠ "no" then
    if opPrecContains ("L" ++ op) then
      ({ handleLeftUnary r ("L" ++ op) with lastTokenWasUnary := true, lastTokenWasOp := op }, none)
    else (r, some (syntaxErr "unrecognized unary operator"))
  else if opPrecContains ("R" ++ op) then
    ({ handleRightUnary r ("R" ++ op) with lastTokenWasUnary := false, lastTokenWasOp := "no" }, none)
  else if opPrecContains op then
    ({ handleBinaryOp r op with lastTokenWasUnary := false, lastTokenWasOp := op }, none)
  else (r, some (syntaxErr "unrecognized binary operator"))

/-- Mirrors `RPNBuilder.handleToken`: a value token while the last token was
not an operator is a SyntaxErr (state unchanged); otherwise append it and
clear the flags. -/
def handleToken (r : RPNBuilder) (t : Token) : RPNBuilder × Option GoErr :=
  if r.lastTokenWasOp = "no" then
    (r, some (syntaxErr "expected token to be an operator or bracket"))
  else
    ({ r with rpn := r.rpn ++ [t], lastTokenWasOp := "no", lastTokenWasUnary := false }, none)

/-- Mirrors `RPNBuilder.openBracket`. -/
def openBracket (r : RPNBuilder) (bracket : String) : RPNBuilder :=
  { r with opStack := bracket :: r.opStack, lastTokenWasOp := bracket,
           lastTokenWasUnary := false, bracketLevel := r.bracketLevel + 1 }

/-- Mirrors `RPNBuilder.closeBracket`: pop operators into the RPN until the
matching opener; an immediately-closed bracket or a missing opener is a
SyntaxErr. On the missing-opener path the source has already appended the
popped operators to the RPN but returns before truncating the operator
stack, so the stack is left unchanged there. -/
def closeBracket (r : RPNBuilder) (bracket : String) : RPNBuilder × Option GoErr :=
  if r.lastTokenWasOp = bracket then
    (r, some (syntaxErr "bracket unexpectedly closed with no elements"))
  else
    let popped := r.opStack.takeWhile fun s => s ≠ bracket
    let rpn1 := r.rpn ++ popped.map fun s => Token.op (normalizeOp s)
    match r.opStack.dropWhile fun s => s ≠ bracket with
    | [] => ({ r with rpn := rpn1 }, some (syntaxErr "extra closing bracket on the expression"))
    | _ :: rest =>
        ({ r with rpn := rpn1, opStack := rest, lastTokenWasOp := "no",
                  lastTokenWasUnary := false, bracketLevel := r.bracketLevel - 1 }, none)

/-- Mirrors `RPNBuilder.FinishAndReturnRPN`: reject a dangling unary, drain
the remaining operator stack into the RPN, and reject an empty RPN. The
dangling-unary diagnostic indexes the top of the operator stack, which
panics when the stack is empty. -/
def finishAndReturnRPN (r : RPNBuilder) : Out (List Token) :=
  if r.lastTokenWasUnary then
    match r.opStack with
    | _ :: _ => .err (syntaxErr "expected operand after unary operator")
    | [] => .panic
  else
    let rpn := r.rpn ++ r.opStack.map fun s => Token.op (normalizeOp s)
    if rpn.isEmpty then .err (parserErr "invalid state: the final rpn ended up empty")
    else .ok rpn

/-- The string-literal scanning loop of `parse` (eparser.go, `case '\'' or
'"'`): collect characters until the closing quote, handling the escape
sequences. Running past the end of the input panics — the loop exits with
`i == len(expr)` and the subsequent `expr[i] != quote` check indexes out of
range; likewise `expr[i+1]` panics on a trailing backslash. A raw newline
stops the loop and yields the SyntaxErr. Returns the index one past the
closing quote and the collected characters. -/
def strScan (expr : List Char) (quote : Char) : Nat → Nat → List Char → Out (Nat × List Char)
  | 0, _, _ => .panic
  | fuel + 1, i, acc =>
      match expr.get? i with
      | none => .panic
      | some c =>
          if c = quote then .ok (i + 1, acc)
          else if c = '\n' then .err (syntaxErr "string literal not terminated")
          else if c = '\\' then
            match expr.get? (i + 1) with
            | none => .panic
            | some c1 =>
                if c1 = 'n' then strScan expr quote fuel (i + 2) (acc ++ ['\n'])
                else if c1 = 't' then strScan expr quote fuel (i + 2) (acc ++ ['\t'])
                else if c1 = '"' ∨ c1 = '\'' ∨ c1 = '\n' then
                  strScan expr quote fuel (i + 2) (acc ++ [c1])
                else strScan expr quote fuel (i + 1) (acc ++ [c])
          else strScan expr quote fuel (i + 1) (acc ++ [c])

/-- The operator-gathering loop of `parse` (default case): collect further
operator-alphabet characters that are not operator-starting characters. -/
def opScanLoop (expr : List Char) : Nat → Nat → List Char → Nat × List Char
  | 0, i, acc => (i, acc)
  | fuel + 1, i, acc =>
      match expr.get? i with
      | some c =>
          if opRunesSet c && !opStartingChar c then opScanLoop expr fuel (i + 1) (acc ++ [c])
          else (i, acc)
      | none => (i, acc)

/-- The main loop of `parse` (eparser.go): one token or operator per
iteration, until the end of input or a `;`. Errors returned by
`handleToken`, `handleOp` and `closeBracket` are discarded exactly where
the source discards them (every call site except the reference-token one).
The reserved-word registry is empty, so its lookups never fire. The fuel
only bounds the recursion; it never runs out because every iteration
advances the cursor. -/
def parseLoop (expr : List Char) (vars : List (String × Token)) :
    Nat → Nat → RPNBuilder → Out (List Token)
  | 0, _, _ => .panic
  | fuel + 1, i, b =>
      match expr.get? i with
      | none => finishAndReturnRPN b
      | some c =>
          if c = ';' then finishAndReturnRPN b
          else if goIsNumber c then
            match parseNumber expr i with
            | (i1, .ok tok) =>
                parseLoop expr vars fuel (consumeSpaces expr i1) (handleToken b tok).1
            | (_, .err e) => .err e
            | (_, .panic) => .panic
          else if isVarChar c then
            let (i1, varName) := parseVar expr i
            let b1 := (handleToken b (.var [varName])).1
            match vars.lookup varName with
            | some tok =>
                match handleToken b1 (.ref tok [varName] none) with
                | (_, some e) => .err e
                | (b2, none) => parseLoop expr vars fuel (consumeSpaces expr i1) b2
            | none =>
                let b2 := (handleToken b1 (.var [varName])).1
                parseLoop expr vars fuel (consumeSpaces expr i1) b2
          else if c = '\'' ∨ c = '"' then
            match strScan expr c (expr.length + 1) (i + 1) [] with
            | .ok (i1, chars) =>
                parseLoop expr vars fuel (consumeSpaces expr i1)
                  (handleToken b (.str (String.mk chars))).1
            | .err e => .err e
            | .panic => .panic
          else if c = '(' then
            let b1 := if b.lastTokenWasOp = "no" then (handleOp b "()").1 else b
            parseLoop expr vars fuel (consumeSpaces expr (i + 1)) (openBracket b1 "(")
          else if c = '[' then
            let b1 :=
              if b.lastTokenWasOp = "no" then (handleOp b "[]").1
              else (handleOp (handleToken b .fnList).1 "()").1
            parseLoop expr vars fuel (consumeSpaces expr (i + 1)) (openBracket b1 "[")
          else if c = '{' then
            let b1 := (handleOp (handleToken b .fnMap).1 "()").1
            parseLoop expr vars fuel (consumeSpaces expr (i + 1)) (openBracket b1 "\x7b")
          else if c = ')' then
            parseLoop expr vars fuel (consumeSpaces expr (i + 1)) (closeBracket b "(").1
          else if c = ']' then
            parseLoop expr vars fuel (consumeSpaces expr (i + 1)) (closeBracket b "[").1
          else if c = '}' then
            parseLoop expr vars fuel (consumeSpaces expr (i + 1)) (closeBracket b "\x7b").1
          else
            let (i1, acc) := opScanLoop expr (expr.length + 1) (i + 1) []
            let op := String.mk (c :: acc)
            if opPrecContains op then
              parseLoop expr vars fuel (consumeSpaces expr i1) (handleOp b op).1
            else .err (syntaxErr "unrecognized operator")

/-- Mirrors `parse`: reject the empty source, then run the main loop from
the first non-space character with a zero-valued builder. -/
def parse (strExpr : String) (vars : List (String × Token)) : Out (List Token) :=
  if strExpr.length = 0 then
    .err (untaggedErr "cannot build an expression from an empty string")
  else
    let expr := strExpr.data
    parseLoop expr vars (expr.length + 1) (consumeSpaces expr 0) {}

/-- Mirrors the exported `Parse` (compile with no compile-time bindings). -/
def Parse (strExpr : String) : Out (List Token) := parse strExpr []

/-- Type of the registered operator implementations (`Operator` in
rpn_builder.go; the `*EvaluationData` argument is unused by every
registered implementation and is elided). -/
def OpFn : Type := Token → Token → String → Out Token

/-- Mirrors `float64(t.(intToken))`: the Go `int64 → float64` conversion,
exact in the rational model of floats. -/
def intToFloat (n : Int) : ℚ := (n : ℚ)

/-- Mirrors `equalsFloatOp`: `boolToken(t1 == t2)`. -/
def equalsFloatOp : OpFn := fun t1 t2 _ =>
  match goTokenEq t1 t2 with
  | .ok b => .ok (.bool b)
  | .err e => .err e
  | .panic => .panic

/-- Mirrors `equalsIntOp`: `boolToken(t1 == t2)`. -/
def equalsIntOp : OpFn := fun t1 t2 _ =>
  match goTokenEq t1 t2 with
  | .ok b => .ok (.bool b)
  | .err e => .err e
  | .panic => .panic

/-- Mirrors `equalsIntFloatOp`: promote the left Int operand to Float and
compare; the type assertion `t1.(intToken)` panics on a non-Int. -/
def equalsIntFloatOp : OpFn := fun t1 t2 _ =>
  match t1 with
  | .int n =>
      match goTokenEq (.float (intToFloat n)) t2 with
      | .ok b => .ok (.bool b)
      | .err e => .err e
      | .panic => .panic
  | _ => .panic

/-- Mirrors `equalsFloatIntOp`: promote the right Int operand to Float and
compare; the type assertion `t2.(intToken)` panics on a non-Int. -/
def equalsFloatIntOp : OpFn := fun t1 t2 _ =>
  match t2 with
  | .int n =>
      match goTokenEq t1 (.float (intToFloat n)) with
      | .ok b => .ok (.bool b)
      | .err e => .err e
      | .panic => .panic
  | _ => .panic

/-- Mirrors `differsOp`: `boolToken(t1 != t2)`. -/
def differsOp : OpFn := fun t1 t2 _ =>
  match goTokenEq t1 t2 with
  | .ok b => .ok (.bool !b)
  | .err e => .err e
  | .panic => .panic

/-- Mirrors `differsIntFloatOp`. -/
def differsIntFloatOp : OpFn := fun t1 t2 _ =>
  match t1 with
  | .int n =>
      match goTokenEq (.float (intToFloat n)) t2 with
      | .ok b => .ok (.bool !b)
      | .err e => .err e
      | .panic => .panic
  | _ => .panic

/-- Mirrors `differsFloatIntOp`. -/
def differsFloatIntOp : OpFn := fun t1 t2 _ =>
  match t2 with
  | .int n =>
      match goTokenEq t1 (.float (intToFloat n)) with
      | .ok b => .ok (.bool !b)
      | .err e => .err e
      | .panic => .panic
  | _ => .panic

/-- Mirrors the two-level `operators` registry (rpn_builder.go):
`operator string → (type pair → implementation)`. Only `==` and `!=` are
registered; `>` and `<` are commented out in the source. -/
def operators : List (String × List ((Tag × Tag) × OpFn)) :=
  [("==",
    [((.float, .float), equalsFloatOp),
     ((.int, .int), equalsIntOp),
     ((.float, .int), equalsFloatIntOp),
     ((.int, .float), equalsIntFloatOp)]),
   ("!=",
    [((.float, .float), differsOp),
     ((.int, .int), differsOp),
     ((.float, .int), differsFloatIntOp),
     ((.int, .float), differsIntFloatOp)])]

/-- Mirrors `findAndRunOperator`: two-level lookup by operator string and
operand type pair, then run the implementation. -/
def findAndRunOperator (op : String) (left right : Token) : Out Token :=
  match operators.lookup op with
  | none => .err (syntaxErr "unrecognized operator")
  | some opGroup =>
      match opGroup.lookup (tagOf left, tagOf right) with
      | none => .err (syntaxErr "unsupported types for operator")
      | some opFunc => opFunc left right op

/-- Mirrors `Token.Clone` across the variants: `varToken` copies its
segment slice, every other variant returns the receiver. -/
def cloneToken : Token → Token
  | .var p => .var p
  | t => t

/-- Mirrors `copyRPN`. -/
def copyRPN (rpn : List Token) : List Token := rpn.map cloneToken

/-- Mirrors `mapToken.getChildMap`. -/
def getChildMap (m : List (String × Token)) : List (String × Token) :=
  [("$parent", .map m)]

/-- The argument fold of `NewMapToken`: require `KeyValuePair`s and reject
duplicate keys. -/
def newMapTokenFold (acc : List (String × Token)) :
    List Token → Except GoErr (List (String × Token))
  | [] => .ok acc
  | v :: rest =>
      match v with
      | .kv k value =>
          if (acc.lookup k).isSome then
            .error (syntaxErr "duplicate key in map literal")
          else newMapTokenFold (acc ++ [(k, value)]) rest
      | _ => .error (syntaxErr "map constructor expects only `key: value` pairs")

/-- Mirrors `NewMapToken` (containers.go). -/
def NewMapToken (args : List Token) : Except GoErr Token :=
  match newMapTokenFold [] args with
  | .ok m => .ok (.map m)
  | .error e => .error e

/-- Running a `Function` value: the function tokens the engine creates form
the closed world of the two container constructors, which both ignore the
scope argument. -/
def callFunction (fn : Token) (args : List Token)
    (scope : List (String × Token)) : Except GoErr Token :=
  match fn, scope with
  | .fnList, _ => .ok (.list args)
  | .fnMap, _ => NewMapToken args
  | _, _ => .error (internalErr "not a function")

/-- Mirrors `execFunc` (eparser.go): build the child scope, call the
function — and then discard both of the function's results, returning
`nil, nil`. The call expression therefore always produces the nil token. -/
def execFunc (this : List (String × Token)) (fn : Token) (args : List Token)
    (vars : List (String × Token)) : Out Token :=
  let vars1 := getChildMap vars
  let _ := callFunction fn args [("$parent", .map vars1), ("this", .map this)]
  .ok .tnull

/-- The per-operand reference bookkeeping of the evaluator loop: a
`refToken` operand is recorded (its origin matters for the receiver of a
call) and resolved; a `varToken` operand is recorded with no origin; any
other operand passes through. -/
def resolveOperand (t : Token) (vars : List (String × Token)) :
    Out (Option (List (String × Token)) × Token) :=
  match t with
  | .ref originalValue key origin =>
      match refResolve originalValue key origin vars with
      | .ok r => .ok (origin, r)
      | .err e => .err e
      | .panic => .panic
  | other => .ok (none, other)

/-- Is the token a Go `Function` value (`left.(Function)` succeeds)? -/
def isFunction : Token → Bool
  | .fnList => true
  | .fnMap => true
  | _ => false

/-- The evaluation loop of `evaluate`: process the RPN against a working
stack (stored top-first). Variables are resolved as they are pushed; an
operator pops right then left, resolves references, and either performs a
function call (when the left operand is a `Function` and the operator is
`()`) or dispatches through the registry, wrapping any error. -/
def evalLoop (vars : List (String × Token)) :
    List Token → List Token → Out Token
  | [], evalStack =>
      match evalStack with
      | [t] => .ok t
      | _ => .err (internalErr "the evalStack should contains a single element at the end")
  | token :: rest, evalStack =>
      match token with
      | .op o =>
          match evalStack with
          | right :: left :: stack1 =>
              match resolveOperand right vars with
              | .err e => .err e
              | .panic => .panic
              | .ok (_, right1) =>
                  match resolveOperand left vars with
                  | .err e => .err e
                  | .panic => .panic
                  | .ok (leftOrigin, left1) =>
                      if isFunction left1 && o = "()" then
                        let args :=
                          match right1 with
                          | .tuple xs => xs
                          | other => [other]
                        let fnReceiver := leftOrigin.getD vars
                        match execFunc fnReceiver left1 args vars with
                        | .ok resp => evalLoop vars rest (resp :: stack1)
                        | .err _ => .err (runtimeErr "error parsing function")
                        | .panic => .panic
                      else
                        match findAndRunOperator o left1 right1 with
                        | .ok resp => evalLoop vars rest (resp :: stack1)
                        | .err _ => .err (runtimeErr "operation error")
                        | .panic => .panic
          | _ => .err (internalErr "missing operands for operator")
      | .var p =>
          match varResolve p vars with
          | .ok t => evalLoop vars rest (t :: evalStack)
          | .err e => .err e
          | .panic => .panic
      | t => evalLoop vars rest (t :: evalStack)

/-- Mirrors `evaluate`: clone the program, then run the loop with an empty
working stack. -/
def evaluate (originalRpn : List Token) (vars : List (String × Token)) : Out Token :=
  evalLoop vars (copyRPN originalRpn) []

/-- Mirrors `BoolExpr.Evaluate` (the spec's `evaluateBool`): bind the JSON
record lazily, evaluate, and assert the result is a Bool. The non-Bool
diagnostic calls `token.String()`, which panics on the nil token. -/
def evaluateBool (rpn : List Token) (logLine : Json) : Out Bool :=
  match NewLazyJsonMap logLine with
  | .error e => .err e
  | .ok m =>
      match evaluate rpn m with
      | .err e => .err e
      | .panic => .panic
      | .ok t =>
          match t with
          | .bool b => .ok b
          | .tnull => .panic
          | _ => .err (internalErr "expression should evaluate to a boolean")

/-- Compile with no bindings and evaluate against a JSON record: the
composition exercised by the engine's test harness. -/
def compileAndEval (src : String) (logLine : Json) : Out Bool :=
  match Parse src with
  | .ok rpn => evaluateBool rpn logLine
  | .err e => .err e
  | .panic => .panic

/-- Heap-level view of tokens, for the aliasing behaviour of `Clone`
(containers.go): a container token holds the address of its backing store
(the map storage or the slice backing array), scalars are immutable values,
and a `varToken` owns its segment slice. -/
inductive HTok where
  | int (n : Int)
  | str (s : String)
  | opTok (s : String)
  | varTok (path : List String)
  | mapRef (addr : Nat)
  | listRef (addr : Nat)
  | tupleRef (addr : Nat)
  deriving DecidableEq, Repr

/-- The `Clone` implementations at the heap level: `mapToken.Clone`,
`listToken.Clone` and `tupleToken.Clone` all `return t` — the same map
header or slice header, hence the same address — while `varToken.Clone`
builds a fresh copy of its segments (`append(varToken{}, v...)`). -/
def hClone : HTok → HTok
  | .varTok p => .varTok p
  | t => t

/-- `copyRPN` at the heap level. -/
def hCopyRPN (rpn : List HTok) : List HTok := rpn.map hClone

/-- The store of map containers, addressed by `Nat`. -/
def MapStore : Type := Nat → List (String × HTok)

/-- Mutate one entry of the map container at address `a`. -/
def storeSetEntry (σ : MapStore) (a : Nat) (k : String) (v : HTok) : MapStore :=
  fun b => if b = a then (k, v) :: σ b else σ b

/-- Read one entry of the map container at address `a`. -/
def storeGetEntry (σ : MapStore) (a : Nat) (k : String) : Option HTok :=
  (σ a).lookup k

/-- The container address a token refers to, if any. -/
def hAddr : HTok → Option Nat
  | .mapRef a => some a
  | .listRef a => some a
  | .tupleRef a => some a
  | _ => none

/-!  Claim theorems. -/

/-- C1: the compiled expression `a == 1` evaluated against the JSON record
with a = 1 yields `true` with no error, and each row of the spec's
concrete-scenario table yields its expected boolean (binary, octal and hex
literals included). -/
theorem c1_concrete_scenarios :
    compileAndEval "a == 1" (.obj [("a", .num 1)]) = .ok true ∧
    compileAndEval "a != 0" (.obj [("a", .num 1)]) = .ok true ∧
    compileAndEval "a == 0b1010" (.obj [("a", .num 10)]) = .ok true ∧
    compileAndEval "a == 012" (.obj [("a", .num 10)]) = .ok true ∧
    compileAndEval "a == 0xA" (.obj [("a", .num 10)]) = .ok true ∧
    compileAndEval "a != 1" (.obj [("a", .num 1)]) = .ok false :=
  ⟨rfl, rfl, rfl, rfl, rfl, rfl⟩

/-- C2: materialising a lazy JSON token parses exactly its JSON value — a
value with a leading digit (a non-negative number) becomes the equal Float
token, a string becomes the String token, `t`/`f` become the Bool token,
an object becomes a Map whose entries are lazy JSON tokens, and an array
becomes a List whose elements are lazy JSON tokens. -/
theorem c2_lazy_materialisation (q : ℚ) (s : String) (b : Bool)
    (fields : List (String × Json)) (elems : List Json) (hq : 0 ≤ q) :
    lazyVal none (.num q) = .ok (.float q) ∧
    lazyVal none (.str s) = .ok (.str s) ∧
    lazyVal none (.bool b) = .ok (.bool b) ∧
    lazyVal none (.obj fields) =
      .ok (.map (fields.map fun kv => (kv.1, Token.lazy none kv.2))) ∧
    lazyVal none (.arr elems) = .ok (.list (elems.map fun v => Token.lazy none v)) := by
  refine ⟨?_, rfl, rfl, rfl, rfl⟩
  simp [lazyVal, unmarshalLazyValue, hq]

/-- Witness for C2 at the concrete JSON number 1. -/
theorem c2_lazy_materialisation_witness :
    0 ≤ (1 : ℚ) ∧ lazyVal none (.num 1) = .ok (.float 1) :=
  ⟨by norm_num, (c2_lazy_materialisation 1 "" true [] [] (by norm_num)).1⟩

/-- C3 (refuting): the list literal `[1]` compiles to a call of the
list-constructor Function, the constructor itself returns the List, but
`execFunc` discards the function's results and returns `nil, nil`, so the
call expression evaluates to the nil token instead of the function's return
value. -/
theorem c3_function_result_discarded :
    Parse "[1]" = .ok [.fnList, .int 1, .op "()"] ∧
    callFunction .fnList [.int 1] [] = .ok (.list [.int 1]) ∧
    (∀ this fn args vars, execFunc this fn args vars = .ok .tnull) ∧
    evaluate [.fnList, .int 1, .op "()"] [] = .ok .tnull :=
  ⟨rfl, rfl, fun _ _ _ _ => rfl, rfl⟩

/-- C4 (refuting): `(a + b) == c` compiles without a reported error, but the
resulting RPN is not the grouped form `[a, b, +, c, ==]`: the drain loop of
`handleOpStack` sees precedence 0 for the `(` marker and pops it into the
output, and the failure of `closeBracket` is discarded, leaving `+` on the
operator stack to be emitted a second time. -/
theorem c4_bracket_rpn :
    Parse "(a + b) == c" =
      .ok [.var ["a"], .op "(", .var ["b"], .op "+", .op "+", .var ["c"], .op "=="] ∧
    [Token.var ["a"], .op "(", .var ["b"], .op "+", .op "+", .var ["c"], .op "=="] ≠
      [Token.var ["a"], .var ["b"], .op "+", .var ["c"], .op "=="] := by
  refine ⟨rfl, fun h => ?_⟩
  have := congrArg List.length h
  simp at this

/-- C5 (refuting, as stated): the comparison operator `<` is not present in
the dispatch registry, so evaluating it yields a SyntaxErr (wrapped in a
RuntimeErr by the evaluator) rather than the Bool of the comparison. -/
theorem c5_registry_counterexample :
    findAndRunOperator "<" (.int 1) (.int 2) = .err (syntaxErr "unrecognized operator") ∧
    evaluate [.int 1, .int 2, .op "<"] [] = .err (runtimeErr "operation error") :=
  ⟨rfl, rfl⟩

/-- C5 (amended): only `==` and `!=` are registered, each on the four
numeric type pairs, returning the Bool of the (in)equality with the Int
operand promoted to Float on the mixed pairs; `<`, `>`, `<=`, `>=` are
absent from the registry and dispatching them returns the SyntaxErr
`unrecognized operator`. -/
theorem c5_registry_amended :
    (∀ a b : Int,
        findAndRunOperator "==" (.int a) (.int b) = .ok (.bool (a == b)) ∧
        findAndRunOperator "!=" (.int a) (.int b) = .ok (.bool !(a == b))) ∧
    (∀ x y : ℚ,
        findAndRunOperator "==" (.float x) (.float y) = .ok (.bool (x == y)) ∧
        findAndRunOperator "!=" (.float x) (.float y) = .ok (.bool !(x == y))) ∧
    (∀ (a : Int) (x : ℚ),
        findAndRunOperator "==" (.int a) (.float x) = .ok (.bool (intToFloat a == x)) ∧
        findAndRunOperator "==" (.float x) (.int a) = .ok (.bool (x == intToFloat a)) ∧
        findAndRunOperator "!=" (.int a) (.float x) = .ok (.bool !(intToFloat a == x)) ∧
        findAndRunOperator "!=" (.float x) (.int a) = .ok (.bool !(x == intToFloat a))) ∧
    ((operators.lookup "<").isNone ∧ (operators.lookup ">").isNone ∧
     (operators.lookup "<=").isNone ∧ (operators.lookup ">=").isNone) ∧
    (∀ left right : Token,
        findAndRunOperator "<" left right = .err (syntaxErr "unrecognized operator") ∧
        findAndRunOperator ">" left right = .err (syntaxErr "unrecognized operator") ∧
        findAndRunOperator "<=" left right = .err (syntaxErr "unrecognized operator") ∧
        findAndRunOperator ">=" left right = .err (syntaxErr "unrecognized operator")) :=
  ⟨fun _ _ => ⟨rfl, rfl⟩, fun _ _ => ⟨rfl, rfl⟩, fun _ _ => ⟨rfl, rfl, rfl, rfl⟩,
   ⟨rfl, rfl, rfl, rfl⟩, fun _ _ => ⟨rfl, rfl, rfl, rfl⟩⟩

/-- C6 (refuting): the literal-scanning loop of `parseNumber` only advances
while `isNumberFn` holds, and `.` is not a digit, so the decimal-point
branch is dead: `1.5` lexes to the Int token 1, the `.` then lexes as the
member-access operator and `5` as another Int, and `0x1.5` raises no
`only base 10 literals can have decimals` SyntaxErr. -/
theorem c6_float_literal_dead :
    parseNumber "1.5".data 0 = (1, .ok (.int 1)) ∧
    Parse "1.5" = .ok [.int 1, .int 5, .op "."] ∧
    parseNumber "0x1.5".data 0 = (3, .ok (.int 1)) ∧
    Parse "0x1.5" = .ok [.int 1, .int 5, .op "."] :=
  ⟨rfl, rfl, rfl, rfl⟩

/-- C7 (refuting): the engine can panic on data-dependent input — a string
literal left unterminated at end of input makes `parse` index one past the
end of the rune slice instead of returning a SyntaxErr, and materialising
the value of the pre-validated JSON record with a = null panics inside
`lazyJsonToken.Value` instead of returning a tagged error. -/
theorem c7_panics_reachable :
    Parse "\"ab" = .panic ∧
    NewLazyJsonMap (.obj [("a", .null)]) = .ok [("a", .lazy none .null)] ∧
    lazyVal none .null = .panic ∧
    varResolve ["a"] [("a", .lazy none .null)] = .panic :=
  ⟨rfl, rfl, rfl, rfl⟩

/-- C8 (refuting, as stated): compiling the source `1 2` succeeds — `parse`
discards the SyntaxErr that `handleToken` returns for the second value
token and returns the one-token program `[1]`. -/
theorem c8_two_values_counterexample : Parse "1 2" = .ok [.int 1] := rfl

/-- C8 (amended): a value token arriving while `lastTokenWasOp == "no"`
makes `handleToken` return a SyntaxErr and leave the builder unchanged, but
`parse` discards that error for literal and variable tokens, so compiling
`1 2` succeeds and returns the program `[1]`. -/
theorem c8_two_values_amended :
    (∀ (rpn : List Token) (opStack : List String) (unary : Bool) (lvl : Int) (t : Token),
        handleToken ⟨rpn, opStack, "no", unary, lvl⟩ t =
          (⟨rpn, opStack, "no", unary, lvl⟩,
           some (syntaxErr "expected token to be an operator or bracket"))) ∧
    Parse "1 2" = .ok [.int 1] :=
  ⟨fun _ _ _ _ _ => rfl, rfl⟩

/-- C9: variable resolution fails soft — when the first segment is missing
from the environment, and whenever the walk still has segments but sits on
a non-Map (or missing) materialised value, `varToken.Resolve` returns the
String token holding the printable form of the whole path, never an
error. -/
theorem c9_variable_fallback (p0 : String) (rest : List String)
    (env : List (String × Token)) (ps : String)
    (hps : varString (p0 :: rest) = some ps) :
    (env.lookup p0 = none → varResolve (p0 :: rest) env = .ok (.str ps)) ∧
    (∀ (segs : List String) (value : Option Token),
        (∀ m, value ≠ some (.map m)) → (segs ≠ [] ∨ value = none) →
        varResolveLoop (p0 :: rest) segs value = .ok (.str ps)) := by
  have hfb : varFallback (p0 :: rest) = .ok (.str ps) := by
    simp [varFallback, hps]
  constructor
  · intro h
    simp only [varResolve, h]
    cases rest with
    | nil => simpa [tokMaterialize, varResolveLoop] using hfb
    | cons s r => simpa [tokMaterialize, varResolveLoop] using hfb
  · intro segs value hnm hcase
    cases segs with
    | nil =>
        rcases hcase with h | h
        · exact absurd rfl h
        · subst h
          simpa [varResolveLoop] using hfb
    | cons s r =>
        match value with
        | none => simpa [varResolveLoop] using hfb
        | some (.map m) => exact absurd rfl (hnm m)
        | some .tnull => simpa [varResolveLoop] using hfb
        | some (.op a) => simpa [varResolveLoop] using hfb
        | some .unary => simpa [varResolveLoop] using hfb
        | some .fnList => simpa [varResolveLoop] using hfb
        | some .fnMap => simpa [varResolveLoop] using hfb
        | some (.str a) => simpa [varResolveLoop] using hfb
        | some (.int a) => simpa [varResolveLoop] using hfb
        | some (.float a) => simpa [varResolveLoop] using hfb
        | some (.bool a) => simpa [varResolveLoop] using hfb
        | some (.list a) => simpa [varResolveLoop] using hfb
        | some (.tuple a) => simpa [varResolveLoop] using hfb
        | some (.kv a v) => simpa [varResolveLoop] using hfb
        | some (.var a) => simpa [varResolveLoop] using hfb
        | some (.ref a k o) => simpa [varResolveLoop] using hfb
        | some (.lazy v j) => simpa [varResolveLoop] using hfb

/-- Witness for C9: resolving the path `a` in the empty environment yields
the String token `a`. -/
theorem c9_variable_fallback_witness : varResolve ["a"] [] = .ok (.str "a") :=
  (c9_variable_fallback "a" [] [] "a" rfl).1 rfl

/-- C10: `Clone` on the container token variants returns a token with the
same underlying container address (no copy), `copyRPN` therefore aliases
the original containers, and an element mutation performed through the
address of `m.Clone()` is visible when reading through `m`. -/
theorem c10_clone_aliasing (σ : MapStore) (a : Nat) (k : String) (v : HTok) :
    hClone (.mapRef a) = .mapRef a ∧
    hClone (.listRef a) = .listRef a ∧
    hClone (.tupleRef a) = .tupleRef a ∧
    hCopyRPN [HTok.mapRef a, .listRef a, .tupleRef a] =
      [HTok.mapRef a, .listRef a, .tupleRef a] ∧
    storeGetEntry
      (storeSetEntry σ ((hAddr (hClone (.mapRef a))).getD 0) k v) a k = some v := by
  refine ⟨rfl, rfl, rfl, rfl, ?_⟩
  simp [storeGetEntry, storeSetEntry, hClone, hAddr]
